import Mathlib

/-!
Shallow embedding of the core of `relay-rs` (`src/relay-rs/src/main.rs`), a
Nostr relay: the event ingestion pipeline (`handle_event`), the whitelist
cache (`check_whitelist_cached` / `invalidate_whitelist_cache`), the
subscription backfill (`handle_req` and `handle_prefix_search_req`), the
NIP-42 AUTH verification and the NIP-86 admin RPC (`handle_nip86`), and the
inbound-frame dispatch of `handle_socket`.

The SQL store is modelled as a list of rows holding the columns the relay
reads back (the surrogate `id` column and `receivedAt` are server-side
metadata not consulted by any query modelled here and are omitted).
Signature verification (`event.verify()`) is delegated to a cryptographic
library in the source and is passed in as a boolean. SQL statements are
modelled by their effect on the row list; queries are modelled as always
succeeding (the error branches of the source report `internal error` /
`NOTICE` and touch no state).
-/

namespace RelayRs

/-- Whitelist status of a row of the `users` table (`whitelistStatus` enum). -/
inductive WStatus where
  | ACTIVE
  | REVOKED
  | VANISHED
deriving DecidableEq, Repr

/-- A row of the `users` table: pubkey, `isAdmin`, `whitelistStatus`. -/
structure UserRec where
  pubkey : String
  isAdmin : Bool
  status : WStatus
deriving DecidableEq, Repr

/-- A Nostr event as the relay handles it: id, pubkey, created_at (unix
seconds), kind, tags (each a list of strings, first string the tag name),
content, signature. -/
structure NEvent where
  id : String
  pubkey : String
  created_at : Int
  kind : Nat
  tags : List (List String)
  content : String
  sig : String
deriving DecidableEq, Repr

/-- A stored row of the `events` table: the event columns plus `expiresAt`. -/
structure StoredRow where
  ev : NEvent
  expiresAt : Option Int
deriving DecidableEq, Repr

/-- The durable store: the `events` and `users` tables. -/
structure RelayDB where
  events : List StoredRow
  users : List UserRec
deriving DecidableEq, Repr

/-- The whitelist cache: pubkey to `(is_admin, is_active)`. -/
abbrev Cache := List (String × Bool × Bool)

/-- Messages the relay sends back on the Nostr wire. -/
inductive RelayMsg where
  | ok (id : String) (accepted : Bool) (message : String)
  | event (subId : String) (e : NEvent)
  | eose (subId : String)
  | notice (text : String)
  | closed (subId : String) (reason : String)
deriving DecidableEq, Repr

/-- Rust `str::parse::<i64>`: optional sign, decimal digits, i64 range. -/
def parseI64 (s : String) : Option Int :=
  let core : List Char → Int → Option Int := fun ds sign =>
    if ds = [] then none
    else if ds.all Char.isDigit then
      let n : Int := sign * ((ds.foldl (fun a c => a * 10 + (c.toNat - 48)) 0 : Nat) : Int)
      if -(2 ^ 63) ≤ n ∧ n ≤ 2 ^ 63 - 1 then some n else none
    else none
  match s.toList with
  | '-' :: rest => core rest (-1)
  | '+' :: rest => core rest 1
  | l => core l 1

/-- Value of a tag when it is an expiration tag (`["expiration", v, ...]`)
with a parseable value. -/
def expTagValue : List String → Option Int
  | "expiration" :: v :: _ => parseI64 v
  | _ => none

/-- `chrono::DateTime::from_timestamp(ts, 0).unwrap_or_default()` as unix
seconds: chrono represents dates from -262143-01-01T00:00:00 to
262142-12-31T23:59:59 (proleptic Gregorian), i.e. seconds in
[-8334601315200, 8210266876799]; `from_timestamp` returns `None` outside
that range and `unwrap_or_default` collapses those values to the Unix
epoch. -/
def chronoTs (ts : Int) : Int :=
  if -8334601315200 ≤ ts ∧ ts ≤ 8210266876799 then ts else 0

/-- The NIP-40 scan of `handle_event`, phrased through `expTagValue` and
`chronoTs`: a tag whose expiration value parses and whose chrono timestamp
(out-of-range values collapse to the epoch) lies strictly before `now`
rejects the event (`none`); otherwise the accumulator keeps the chrono
timestamp of the last parseable expiration tag seen so far. -/
def checkExpiration (now : Int) : List (List String) → Option Int → Option (Option Int)
  | [], acc => some acc
  | t :: rest, acc =>
    match expTagValue t with
    | some ts =>
      if chronoTs ts < now then none else checkExpiration now rest (some (chronoTs ts))
    | none => checkExpiration now rest acc

/-- `(is_admin, is_active)` of a pubkey straight from the `users` table:
`isAdmin` and `whitelistStatus = 'ACTIVE'`; `(false, false)` on absent row. -/
def lookupUserPair (users : List UserRec) (pk : String) : Bool × Bool :=
  match users.find? (fun u => u.pubkey == pk) with
  | some u => (u.isAdmin, u.status == WStatus.ACTIVE)
  | none => (false, false)

/-- Read the whitelist cache. -/
def cacheGet (c : Cache) (pk : String) : Option (Bool × Bool) :=
  (c.find? (fun e => e.1 == pk)).map (fun e => e.2)

/-- Write-through a whitelist cache entry. -/
def cacheSet (c : Cache) (pk : String) (v : Bool × Bool) : Cache :=
  (pk, v) :: c.filter (fun e => e.1 != pk)

/-- `invalidate_whitelist_cache`: drop the entry for a pubkey. -/
def cacheDel (c : Cache) (pk : String) : Cache :=
  c.filter (fun e => e.1 != pk)

/-- `check_whitelist_cached`: on a cache hit return the cached pair; on a
miss load from the `users` table, fill the cache and return the pair. -/
def checkWhitelistCached (users : List UserRec) (c : Cache) (pk : String) :
    Bool × Bool × Cache :=
  match cacheGet c pk with
  | some p => (p.1, p.2, c)
  | none =>
    let p := lookupUserPair users pk
    (p.1, p.2, cacheSet c pk p)

/-- The d-value of an incoming addressable event: second element of the
first tag whose first element is `"d"`, empty string when missing. -/
def dTagOf (tags : List (List String)) : String :=
  match tags.find? (fun t => t.head? == some "d") with
  | some t => (t[1]?).getD ""
  | none => ""

/-- The row predicate of the addressable DELETE of `handle_event`: the
stored row must itself carry a `d` tag whose value matches the incoming
d-value (SQL treats a missing second element and `''` alike when the
incoming d-value is empty). -/
def dTagEntryMatches (d : String) (t : List String) : Bool :=
  t[0]? == some "d" && (t[1]? == some d || (d == "" && (t[1]? == none || t[1]? == some "")))

/-- A stored row matched by the addressable DELETE for `(pk, kind, d)`. -/
def addrDeleteMatches (pk : String) (kind : Nat) (d : String) (r : StoredRow) : Bool :=
  r.ev.pubkey == pk && r.ev.kind == kind && r.ev.tags.any (dTagEntryMatches d)

/-- The addressable DELETE: drop every matched row. -/
def deleteAddressable (db : RelayDB) (e : NEvent) : RelayDB :=
  { db with events := db.events.filter (fun r => !(addrDeleteMatches e.pubkey e.kind (dTagOf e.tags) r)) }

/-- `INSERT ... ON CONFLICT ("eventId") DO NOTHING`: append the row unless a
row with the same event id is already stored. -/
def insertEvent (db : RelayDB) (e : NEvent) (expiresAt : Option Int) : RelayDB :=
  if db.events.any (fun r => r.ev.id == e.id) then db
  else { db with events := db.events ++ [⟨e, expiresAt⟩] }

/-- Target of a tag when it is an event-reference tag (`["e", target, ...]`). -/
def eTagTarget : List String → Option String
  | "e" :: target :: _ => some target
  | _ => none

/-- The NIP-09 loop of `handle_event`: for each tag `["e", target, ...]` run
`DELETE FROM events WHERE "eventId" = target AND pubkey = pk`. -/
def applyKind5Aux (pk : String) (rows : List StoredRow) : List (List String) → List StoredRow
  | [] => rows
  | t :: rest =>
    match eTagTarget t with
    | some targetId =>
      applyKind5Aux pk (rows.filter (fun r => !(r.ev.id == targetId && r.ev.pubkey == pk))) rest
    | none => applyKind5Aux pk rows rest

/-- NIP-09 deletion side effect of a kind-5 event. -/
def applyKind5 (db : RelayDB) (e : NEvent) : RelayDB :=
  { db with events := applyKind5Aux e.pubkey db.events e.tags }

/-- NIP-62 vanish side effect of a kind-62 event: delete all events of the
pubkey, set the user's status to VANISHED, invalidate the cache entry. -/
def applyVanish (db : RelayDB) (c : Cache) (pk : String) : RelayDB × Cache :=
  ({ events := db.events.filter (fun r => r.ev.pubkey != pk),
     users := db.users.map (fun u => if u.pubkey == pk then { u with status := WStatus.VANISHED } else u) },
   cacheDel c pk)

/-- Result of running `handle_event`: new store, new cache, messages sent to
the publishing client, events published on the broadcast hub. -/
structure IngestOut where
  db : RelayDB
  cache : Cache
  msgs : List RelayMsg
  broadcasts : List NEvent
deriving DecidableEq, Repr

/-- `handle_event`: verify the signature, scan expiration tags, check the
whitelist, run the addressable DELETE for kinds 30000..39999, insert with
ON CONFLICT DO NOTHING, run the kind-5 and kind-62 side effects, then ack
`OK(id, true, "")` and broadcast. `sigOk` is the outcome of the delegated
`event.verify()`. -/
def handleEvent (sigOk : Bool) (now : Int) (db : RelayDB) (c : Cache) (e : NEvent) : IngestOut :=
  if !sigOk then ⟨db, c, [.ok e.id false "Invalid signature"], []⟩
  else
    match checkExpiration now e.tags none with
    | none => ⟨db, c, [.ok e.id false "error: event expired"], []⟩
    | some expiresAt =>
      let w := checkWhitelistCached db.users c e.pubkey
      if !w.1 && !w.2.1 then
        ⟨db, w.2.2, [.ok e.id false "blocked: user not whitelisted"], []⟩
      else
        let db1 := if 30000 ≤ e.kind && e.kind < 40000 then deleteAddressable db e else db
        let db2 := insertEvent db1 e expiresAt
        let db3 := if e.kind == 5 then applyKind5 db2 e else db2
        let r4 := if e.kind == 62 then applyVanish db3 w.2.2 e.pubkey else (db3, w.2.2)
        ⟨r4.1, r4.2, [.ok e.id true ""], [e]⟩

/-- A strictly parsed Nostr filter (the nostr crate's `Filter`): authors are
full 64-hex pubkeys, `#x` tag selectors under `tagSel`. -/
structure NFilter where
  ids : Option (List String) := none
  authors : Option (List String) := none
  kinds : Option (List Nat) := none
  since : Option Int := none
  untilTs : Option Int := none
  limit : Option Nat := none
  tagSel : List (String × List String) := []
deriving DecidableEq, Repr

/-- Optional set constraint of a filter dimension. -/
def matchList {α : Type} [BEq α] (o : Option (List α)) (x : α) : Bool :=
  match o with
  | none => true
  | some l => l.contains x

/-- The nostr crate's `Filter::match_event`, used for the in-memory
re-check and for live broadcast matching: every specified dimension must
match; a tag selector requires a tag with that name whose second element is
one of the selected values. -/
def matchEvent (f : NFilter) (e : NEvent) : Bool :=
  matchList f.ids e.id &&
  matchList f.authors e.pubkey &&
  matchList f.kinds e.kind &&
  (match f.since with | none => true | some s => decide (s ≤ e.created_at)) &&
  (match f.untilTs with | none => true | some u => decide (e.created_at ≤ u)) &&
  f.tagSel.all (fun sel =>
    e.tags.any (fun t =>
      t[0]? == some sel.1 &&
        (match t[1]? with | some v => sel.2.contains v | none => false)))

/-- The `expiresAt IS NULL OR expiresAt > NOW()` predicate of both query
paths. -/
def notExpiredRow (now : Int) (r : StoredRow) : Bool :=
  match r.expiresAt with
  | none => true
  | some t => decide (now < t)

/-- The SQL predicate `handle_req` lowers from the FIRST filter of a REQ:
kinds/authors as `IN` lists (an empty list adds no constraint), since/until
as bounds on `createdAt`, always conjoined with the expiry predicate. -/
def reqSqlPred (now : Int) (fOpt : Option NFilter) (r : StoredRow) : Bool :=
  notExpiredRow now r &&
  (match fOpt with
   | none => true
   | some f =>
     (match f.kinds with
      | some ks => ks.isEmpty || ks.contains r.ev.kind
      | none => true) &&
     (match f.authors with
      | some al => al.isEmpty || al.contains r.ev.pubkey
      | none => true) &&
     (match f.since with | none => true | some s => decide (s ≤ r.ev.created_at)) &&
     (match f.untilTs with | none => true | some u => decide (r.ev.created_at ≤ u)))

/-- `ORDER BY "createdAt" DESC` (ties in unspecified order; modelled by
insertion sort). -/
def sortDesc (l : List StoredRow) : List StoredRow :=
  l.insertionSort (fun a b => b.ev.created_at ≤ a.ev.created_at)

/-- `LIMIT` of the canonical REQ query: `min(filter.limit, 500)`, `100`
when the limit or the filter is absent. -/
def reqLimit (fOpt : Option NFilter) : Nat :=
  match fOpt with
  | some f =>
    match f.limit with
    | some l => min l 500
    | none => 100
  | none => 100

/-- The per-connection subscription registry. -/
abbrev Subs := List (String × List NFilter)

/-- Insert or replace a subscription under its id. -/
def subsSet (s : Subs) (k : String) (v : List NFilter) : Subs :=
  (k, v) :: s.filter (fun e => e.1 != k)

/-- The rows the canonical REQ query returns: filtered by the lowered SQL
predicate, ordered by `createdAt` descending, limited. -/
def reqRows (now : Int) (db : RelayDB) (fOpt : Option NFilter) : List StoredRow :=
  (sortDesc (db.events.filter (reqSqlPred now fOpt))).take (reqLimit fOpt)

/-- `handle_req`: register (replace) the subscription, run the lowered query
for the first filter, re-check each row against the full filter set in memory,
forward matches as EVENT frames, then send EOSE. -/
def handleReq (now : Int) (db : RelayDB) (subs : Subs) (subId : String)
    (filters : List NFilter) : Subs × List RelayMsg :=
  let subs' := subsSet subs subId filters
  let rows := reqRows now db filters.head?
  (subs',
    ((rows.filter (fun r => filters.any (fun f => matchEvent f r.ev))).map
      (fun r => RelayMsg.event subId r.ev)) ++ [RelayMsg.eose subId])

/-- The raw filter object of the prefix-tolerant REQ path, as the JSON map
that reached `handle_prefix_search_req`. The path reads only kinds,
authors, since, until and limit; ids and `#x` selectors present in the
object are ignored by it. -/
structure RawFilter where
  ids : List String := []
  kinds : List Int := []
  authors : List String := []
  since : Option Int := none
  untilTs : Option Int := none
  limit : Option Int := none
  tagSel : List (String × List String) := []
deriving DecidableEq, Repr

/-- An author value that the prefix path can inline into its SQL string
without altering the query's shape: it contains no single-quote character.
`handle_prefix_search_req` interpolates author values unquoted (spec
section 9 flags this); a quote-bearing value rewrites the SQL itself, so
only quote-free values behave as data and are modelled here. -/
def sqlSafeAuthor (a : String) : Bool :=
  !(a.toList.contains '\'')

/-- Author condition of the prefix path (for quote-free author values): 64
characters means equality, anything shorter is a `LIKE 'a%'` prefix match. -/
def prefixAuthorMatch (a : String) (pk : String) : Bool :=
  if a.length == 64 then pk == a else a.toList.isPrefixOf pk.toList

/-- The SQL predicate `handle_prefix_search_req` builds. -/
def prefixSqlPred (now : Int) (f : RawFilter) (r : StoredRow) : Bool :=
  notExpiredRow now r &&
  (f.kinds.isEmpty || f.kinds.contains (r.ev.kind : Int)) &&
  (f.authors.isEmpty || f.authors.any (fun a => prefixAuthorMatch a r.ev.pubkey)) &&
  (match f.since with | none => true | some s => decide (s ≤ r.ev.created_at)) &&
  (match f.untilTs with | none => true | some u => decide (r.ev.created_at ≤ u))

/-- `LIMIT` of the prefix path: `filter.limit` as sent (no 500 cap), `100`
when absent. -/
def rawLimit (f : RawFilter) : Int :=
  f.limit.getD 100

/-- Rows the prefix-path query returns. -/
def prefixRows (now : Int) (db : RelayDB) (f : RawFilter) : List StoredRow :=
  (sortDesc (db.events.filter (prefixSqlPred now f))).take (rawLimit f).toNat

/-- `handle_prefix_search_req`: run the prefix query and forward every
returned row as an EVENT frame (no in-memory re-check), then EOSE. It does
not register the subscription. A negative `filter.limit` is interpolated
into `LIMIT {}` and makes the query error (PostgreSQL refuses a negative
LIMIT): the error branch sends only a `Query error` NOTICE (the source
appends the database error text) and no EOSE. The row semantics presuppose
quote-free author values (`sqlSafeAuthor`); quote-bearing values rewrite
the inlined SQL and are outside this model. -/
def handlePrefixSearchReq (now : Int) (db : RelayDB) (subId : String) (f : RawFilter) :
    List RelayMsg :=
  if rawLimit f < 0 then [RelayMsg.notice "Query error"]
  else (prefixRows now db f).map (fun r => RelayMsg.event subId r.ev) ++ [RelayMsg.eose subId]

/-- The raw filter object read as a plain filter, for stating what the
claimed in-memory re-check would test on the prefix path. -/
def rawToNFilter (f : RawFilter) : NFilter :=
  { ids := if f.ids.isEmpty then none else some f.ids,
    authors := if f.authors.isEmpty then none else some f.authors,
    kinds := if f.kinds.isEmpty then none else some (f.kinds.map Int.toNat),
    since := f.since,
    untilTs := f.untilTs,
    limit := f.limit.map Int.toNat,
    tagSel := f.tagSel }

/-- The event messages among a list of relay messages. -/
def eventMsgsOf (msgs : List RelayMsg) : List NEvent :=
  msgs.filterMap fun m =>
    match m with
    | .event _ e => some e
    | _ => none

/-- Whether a relay message is an EVENT frame. -/
def isEventMsg : RelayMsg → Bool
  | .event _ _ => true
  | _ => false

/-- NIP-42 challenge check of the AUTH branch: some tag
`["challenge", v, ...]` has `v` equal to the connection's challenge. -/
def challengeTagValid (challenge : String) (tags : List (List String)) : Bool :=
  tags.any fun t =>
    match t with
    | "challenge" :: v :: _ => v == challenge
    | _ => false

/-- The `ClientMessage::Auth` branch of `handle_client_message`: require
kind 22242, then a matching challenge tag, then a valid signature; on
success record the event's pubkey as the session's authenticated pubkey.
`verifyOk` is the outcome of the delegated `event.verify()`. -/
def handleAuth (verifyOk : Bool) (challenge : String) (authPk : Option String) (e : NEvent) :
    Option String × RelayMsg :=
  if e.kind != 22242 then (authPk, .ok e.id false "error: invalid kind for auth")
  else if !challengeTagValid challenge e.tags then
    (authPk, .ok e.id false "error: invalid challenge")
  else if !verifyOk then (authPk, .ok e.id false "error: invalid signature")
  else (some e.pubkey, .ok e.id true "auth-success")

/-- Result payload of a NIP-86 call. -/
inductive RpcResult where
  | users (l : List String)
  | boolTrue
deriving DecidableEq, Repr

/-- JSON-RPC response of `handle_nip86`. -/
inductive RpcResponse where
  | success (r : RpcResult)
  | failure (code : Int) (message : String)
deriving DecidableEq, Repr

/-- The admin check of `handle_nip86`: an authenticated pubkey whose `users`
row has `isAdmin`; no AUTH or no row or no flag means not admin. -/
def isAdminOf (users : List UserRec) (authPk : Option String) : Bool :=
  match authPk with
  | none => false
  | some pk =>
    match users.find? (fun u => u.pubkey == pk) with
    | some u => u.isAdmin
    | none => false

/-- `allow_user`: upsert the row with status ACTIVE (fresh rows carry the
`isAdmin` column default). -/
def upsertActive (users : List UserRec) (pk : String) : List UserRec :=
  if users.any (fun u => u.pubkey == pk) then
    users.map (fun u => if u.pubkey == pk then { u with status := WStatus.ACTIVE } else u)
  else users ++ [⟨pk, false, WStatus.ACTIVE⟩]

/-- `ban_user`: set status REVOKED where the pubkey matches. -/
def banUser (users : List UserRec) (pk : String) : List UserRec :=
  users.map (fun u => if u.pubkey == pk then { u with status := WStatus.REVOKED } else u)

/-- `handle_nip86` after its id/method presence guard: refuse non-admins
with code -32000, dispatch the three methods, and map every error string
(including an unknown method) to code -32601. `params` models
`params.as_array()` with each element's `as_str()`. -/
def handleNip86 (users : List UserRec) (authPk : Option String) (method : String)
    (params : Option (List (Option String))) : List UserRec × RpcResponse :=
  if !isAdminOf users authPk then
    (users, .failure (-32000) "Unauthorized: Admin access required")
  else if method == "list_allowed_users" then
    (users, .success (.users ((users.filter (fun u => u.status == WStatus.ACTIVE)).map (fun u => u.pubkey))))
  else if method == "allow_user" then
    match (params.bind fun l => l.head?).join with
    | some p => (upsertActive users p, .success .boolTrue)
    | none => (users, .failure (-32601) "Missing pubkey param")
  else if method == "ban_user" then
    match (params.bind fun l => l.head?).join with
    | some p => (banUser users p, .success .boolTrue)
    | none => (users, .failure (-32601) "Missing pubkey param")
  else (users, .failure (-32601) "Method not found")

/-- A JSON value, as far as the frame dispatch of `handle_socket` inspects
it. -/
inductive JsonVal where
  | str (s : String)
  | num (n : Int)
  | bool (b : Bool)
  | null
  | arr (elems : List JsonVal)
  | obj (fields : List (String × JsonVal))
deriving Repr

/-- `as_str().unwrap_or("")` on a JSON value. -/
def JsonVal.asStrD : JsonVal → String
  | .str s => s
  | _ => ""

/-- What the receive loop of `handle_socket` does with one parsed inbound
text frame: which handler runs, or a NOTICE, or nothing at all. `α` is the
strict decoder's message type (the nostr crate's `ClientMessage`). -/
inductive FrameAction (α : Type) where
  | silent
  | rpc (fields : List (String × JsonVal))
  | negOpen (arr : List JsonVal)
  | negMsg (arr : List JsonVal)
  | negClose (arr : List JsonVal)
  | client (m : α)
  | clientFixed (m : α)
  | prefixReq (subId : String) (fields : List (String × JsonVal))
  | notice

/-- The nested-filters REQ recovery: on `["REQ", sub, [f, ...]]` rebuild
`["REQ", sub, f, ...]` and retry the strict decoder. -/
def reqFixParse {α : Type} (sp : List JsonVal → Option α) (h : JsonVal) (rest : List JsonVal) :
    Option α :=
  if h.asStrD == "REQ" && (h :: rest).length == 3 then
    match (h :: rest)[2]? with
    | some (JsonVal.arr fs) => sp (h :: ((h :: rest)[1]?).toList ++ fs)
    | _ => none
  else none

/-- The prefix-search recovery shape: `["REQ", sub_id, { ... }, ...]` with a
string sub id and an object filter. -/
def prefixShape (h : JsonVal) (rest : List JsonVal) :
    Option (String × List (String × JsonVal)) :=
  if h.asStrD == "REQ" && decide (3 ≤ (h :: rest).length) then
    match (h :: rest)[1]?, (h :: rest)[2]? with
    | some (JsonVal.str sid), some (JsonVal.obj fields) => some (sid, fields)
    | _, _ => none
  else none

/-- The frame dispatch of `handle_socket`'s receive loop. `none` input means
`serde_json::from_str` failed (the frame was not valid JSON): the loop falls
through with no reply. A JSON object goes to the admin RPC; an array is
dispatched on its first element, with the strict decoder `sp` and the two
tolerated malformed-REQ recoveries; whatever remains draws the NOTICE. JSON
scalars and the empty array are silently ignored. -/
def handleFrame {α : Type} (sp : List JsonVal → Option α) (vOpt : Option JsonVal) :
    FrameAction α :=
  match vOpt with
  | none => .silent
  | some v =>
    match v with
    | .obj fields => .rpc fields
    | .arr [] => .silent
    | .arr (h :: rest) =>
      let msgType := h.asStrD
      if msgType == "NEG-OPEN" then .negOpen (h :: rest)
      else if msgType == "NEG-MSG" then .negMsg (h :: rest)
      else if msgType == "NEG-CLOSE" then .negClose (h :: rest)
      else
        match sp (h :: rest) with
        | some m => .client m
        | none =>
          match reqFixParse sp h rest with
          | some m => .clientFixed m
          | none =>
            match prefixShape h rest with
            | some (sid, fields) => .prefixReq sid fields
            | none => .notice
    | _ => .silent

/-- Whether a frame action sends the `Invalid message` NOTICE. -/
def FrameAction.emitsNotice {α : Type} : FrameAction α → Bool
  | .notice => true
  | _ => false

/-- Whether a frame action hands the frame to a handler that can change
connection or store state; NOTICE and silence never do. -/
def FrameAction.touchesState {α : Type} : FrameAction α → Bool
  | .silent => false
  | .notice => false
  | _ => true

instance : IsTotal StoredRow (fun a b => b.ev.created_at ≤ a.ev.created_at) :=
  ⟨fun a b => le_total b.ev.created_at a.ev.created_at⟩

instance : IsTrans StoredRow (fun a b => b.ev.created_at ≤ a.ev.created_at) :=
  ⟨fun _ _ _ hab hbc => le_trans hbc hab⟩

/-- C2: the code does not keep the exactly-one invariant for addressable
events. A whitelisted pubkey `p` has a stored kind-30000 event with no tags
(d-value is the empty string); ingesting a second kind-30000 event from `p`
with no tags (same empty d-value) leaves BOTH in the store, because the
addressable DELETE only matches stored rows that themselves carry a `d`
tag: afterwards two events share the triple `(p, 30000, "")`. -/
theorem c2_addressable_replacement_bug :
    ((handleEvent true 0
          ⟨[⟨⟨"id0", "p", 10, 30000, [], "v1", "s0"⟩, none⟩], [⟨"p", false, WStatus.ACTIVE⟩]⟩
          [] ⟨"id1", "p", 20, 30000, [], "v2", "s1"⟩).db.events.filter
        (fun r => r.ev.pubkey == "p" && r.ev.kind == 30000 && dTagOf r.ev.tags == "")).length = 2 := by
  decide

theorem eventMsgsOf_build (s : String) (l : List StoredRow) :
    eventMsgsOf (l.map (fun r => RelayMsg.event s r.ev) ++ [RelayMsg.eose s]) =
      l.map (fun r => r.ev) := by
  induction l with
  | nil => rfl
  | cons a t ih =>
    have h : eventMsgsOf (((a :: t).map (fun r => RelayMsg.event s r.ev)) ++ [RelayMsg.eose s]) =
        a.ev :: eventMsgsOf ((t.map (fun r => RelayMsg.event s r.ev)) ++ [RelayMsg.eose s]) := rfl
    rw [h, ih]
    rfl

theorem pairwise_sortDesc (l : List StoredRow) :
    List.Pairwise (fun a b : StoredRow => b.ev.created_at ≤ a.ev.created_at) (sortDesc l) :=
  List.sorted_insertionSort _ l

theorem pairwise_reqRows (now : Int) (db : RelayDB) (fOpt : Option NFilter) :
    List.Pairwise (fun a b : StoredRow => b.ev.created_at ≤ a.ev.created_at)
      (reqRows now db fOpt) :=
  List.Pairwise.sublist (List.take_sublist _ _) (pairwise_sortDesc _)

theorem pairwise_prefixRows (now : Int) (db : RelayDB) (f : RawFilter) :
    List.Pairwise (fun a b : StoredRow => b.ev.created_at ≤ a.ev.created_at)
      (prefixRows now db f) :=
  List.Pairwise.sublist (List.take_sublist _ _) (pairwise_sortDesc _)

/-- C5 (amended): on the canonical REQ path the historical backfill forwards
at most `min(filter.limit, 500)` events (100 when unset), in `created_at`
descending order, all passing the in-memory re-check against the full
filter set, and the batch is followed by EOSE. On the prefix-tolerant REQ
path, provided every author value is quote-free (the path inlines values
into its SQL unquoted, spec section 9) and the limit is nonnegative, the
backfill forwards at most `filter.limit` rows (default 100, without the
500 cap and without any in-memory re-check), in `created_at` descending
order, followed by EOSE; a negative limit makes the inlined query error,
and the relay sends only a `Query error` NOTICE and no EOSE. -/
theorem c5_backfill_amended (now : Int) (db : RelayDB) (subs : Subs) (subId : String)
    (filters : List NFilter) (f : RawFilter) :
    ((eventMsgsOf (handleReq now db subs subId filters).2).length ≤ reqLimit filters.head? ∧
     List.Pairwise (fun a b : NEvent => b.created_at ≤ a.created_at)
       (eventMsgsOf (handleReq now db subs subId filters).2) ∧
     (∀ ev ∈ eventMsgsOf (handleReq now db subs subId filters).2,
       filters.any (fun fl => matchEvent fl ev) = true) ∧
     ((handleReq now db subs subId filters).2).getLast? = some (RelayMsg.eose subId) ∧
     (∀ m ∈ ((handleReq now db subs subId filters).2).dropLast, isEventMsg m = true)) ∧
    (f.authors.all sqlSafeAuthor = true → 0 ≤ rawLimit f →
     ((eventMsgsOf (handlePrefixSearchReq now db subId f)).length ≤ (rawLimit f).toNat ∧
      List.Pairwise (fun a b : NEvent => b.created_at ≤ a.created_at)
        (eventMsgsOf (handlePrefixSearchReq now db subId f)) ∧
      (handlePrefixSearchReq now db subId f).getLast? = some (RelayMsg.eose subId) ∧
      (∀ m ∈ (handlePrefixSearchReq now db subId f).dropLast, isEventMsg m = true))) ∧
    (rawLimit f < 0 →
      handlePrefixSearchReq now db subId f = [RelayMsg.notice "Query error"]) := by
  refine ⟨?_, ?_, ?_⟩
  · have hmsgs : (handleReq now db subs subId filters).2 =
        ((reqRows now db filters.head?).filter
            (fun r => filters.any (fun fl => matchEvent fl r.ev))).map
          (fun r => RelayMsg.event subId r.ev) ++ [RelayMsg.eose subId] := rfl
    rw [hmsgs, eventMsgsOf_build]
    refine ⟨?_, ?_, ?_, ?_, ?_⟩
    · rw [List.length_map]
      refine le_trans (List.length_filter_le _ _) ?_
      simp only [reqRows]
      exact List.length_take_le _ _
    · refine List.pairwise_map.mpr ?_
      exact List.Pairwise.sublist (List.filter_sublist _) (pairwise_reqRows now db _)
    · intro ev hev
      obtain ⟨r, hr, hrev⟩ := List.mem_map.mp hev
      have := (List.mem_filter.mp hr).2
      rw [← hrev]
      exact this
    · rw [List.getLast?_concat]
    · rw [List.dropLast_concat]
      intro m hm
      obtain ⟨x, _, hx⟩ := List.mem_map.mp hm
      rw [← hx]
      rfl
  · intro _ hl
    have hmsgs : handlePrefixSearchReq now db subId f =
        (prefixRows now db f).map (fun r => RelayMsg.event subId r.ev) ++
          [RelayMsg.eose subId] := by
      simp only [handlePrefixSearchReq]
      rw [if_neg (not_lt.mpr hl)]
    rw [hmsgs, eventMsgsOf_build]
    refine ⟨?_, ?_, ?_, ?_⟩
    · rw [List.length_map]
      simp only [prefixRows]
      exact List.length_take_le _ _
    · exact List.pairwise_map.mpr (pairwise_prefixRows now db f)
    · rw [List.getLast?_concat]
    · rw [List.dropLast_concat]
      intro m hm
      obtain ⟨x, _, hx⟩ := List.mem_map.mp hm
      rw [← hx]
      rfl
  · intro h
    simp only [handlePrefixSearchReq]
    rw [if_pos h]

/-- Witness for C5 (amended) at a concrete store, REQ, prefix filter and
negative-limit prefix filter. -/
theorem c5_backfill_amended_witness :
    (eventMsgsOf (handleReq 0 ⟨[⟨⟨"idE", "abcd", 5, 1, [], "c", "s"⟩, none⟩], []⟩ [] "s"
        [{ kinds := some [1] }]).2).length ≤ reqLimit (some { kinds := some [1] }) ∧
    ((handleReq 0 ⟨[⟨⟨"idE", "abcd", 5, 1, [], "c", "s"⟩, none⟩], []⟩ [] "s"
        [{ kinds := some [1] }]).2).getLast? = some (RelayMsg.eose "s") ∧
    (eventMsgsOf (handlePrefixSearchReq 0 ⟨[⟨⟨"idE", "abcd", 5, 1, [], "c", "s"⟩, none⟩], []⟩ "s"
        { authors := ["ab"] })).length ≤ (rawLimit { authors := ["ab"] }).toNat ∧
    (handlePrefixSearchReq 0 ⟨[⟨⟨"idE", "abcd", 5, 1, [], "c", "s"⟩, none⟩], []⟩ "s"
        { authors := ["ab"] }).getLast? = some (RelayMsg.eose "s") ∧
    handlePrefixSearchReq 0 ⟨[⟨⟨"idE", "abcd", 5, 1, [], "c", "s"⟩, none⟩], []⟩ "s"
        { limit := some (-5) } = [RelayMsg.notice "Query error"] :=
  ⟨(c5_backfill_amended 0 ⟨[⟨⟨"idE", "abcd", 5, 1, [], "c", "s"⟩, none⟩], []⟩ [] "s"
      [{ kinds := some [1] }] { authors := ["ab"] }).1.1,
   (c5_backfill_amended 0 ⟨[⟨⟨"idE", "abcd", 5, 1, [], "c", "s"⟩, none⟩], []⟩ [] "s"
      [{ kinds := some [1] }] { authors := ["ab"] }).1.2.2.2.1,
   ((c5_backfill_amended 0 ⟨[⟨⟨"idE", "abcd", 5, 1, [], "c", "s"⟩, none⟩], []⟩ [] "s"
      [{ kinds := some [1] }] { authors := ["ab"] }).2.1 (by decide) (by decide)).1,
   ((c5_backfill_amended 0 ⟨[⟨⟨"idE", "abcd", 5, 1, [], "c", "s"⟩, none⟩], []⟩ [] "s"
      [{ kinds := some [1] }] { authors := ["ab"] }).2.1 (by decide) (by decide)).2.2.1,
   (c5_backfill_amended 0 ⟨[⟨⟨"idE", "abcd", 5, 1, [], "c", "s"⟩, none⟩], []⟩ [] "s"
      [{ kinds := some [1] }] { limit := some (-5) }).2.2 (by decide)⟩

/-- C5 counterexample: on the prefix-tolerant path the claimed full
in-memory re-check does not happen. With one stored event of pubkey
`"abcd"` and the prefix-path filter `{authors: ["ab"], "#t": ["x"]}`, the
event is forwarded as an EVENT frame even though it does not match the
filter (the event has no `t` tag and its full pubkey is not in the author
list), so a forwarded event fails the re-check the claim asserts. -/
theorem c5_prefix_no_recheck_counterexample :
    handlePrefixSearchReq 0 ⟨[⟨⟨"idE", "abcd", 5, 1, [], "c", "s"⟩, none⟩], []⟩ "s"
        { authors := ["ab"], tagSel := [("t", ["x"])] } =
      [RelayMsg.event "s" ⟨"idE", "abcd", 5, 1, [], "c", "s"⟩, RelayMsg.eose "s"] ∧
    matchEvent (rawToNFilter { authors := ["ab"], tagSel := [("t", ["x"])] })
        ⟨"idE", "abcd", 5, 1, [], "c", "s"⟩ = false := by
  decide

/-- C6 counterexample: an AUTH event of kind 1 carrying no matching
challenge tag is refused with `"error: invalid kind for auth"`, not with
the claimed `"error: invalid challenge"`: the kind test precedes the
challenge test. -/
theorem c6_counterexample :
    handleAuth true "c" none ⟨"i", "p", 0, 1, [], "", ""⟩ =
      (none, RelayMsg.ok "i" false "error: invalid kind for auth") ∧
    RelayMsg.ok "i" false "error: invalid kind for auth" ≠
      RelayMsg.ok "i" false "error: invalid challenge" := by
  decide

/-- C6 (amended): only AUTH events of kind 22242 reach the challenge test.
A kind-22242 AUTH event with no tag named challenge matching the
connection's token draws `["OK", id, false, "error: invalid challenge"]`
and leaves the authenticated pubkey unchanged; a kind-22242 AUTH event with
the correct challenge and a valid signature sets the authenticated pubkey
to the event's pubkey; an AUTH event of any other kind draws
`["OK", id, false, "error: invalid kind for auth"]` and leaves the
authenticated pubkey unchanged. -/
theorem c6_auth_amended (verifyOk : Bool) (challenge : String) (authPk : Option String)
    (e : NEvent) :
    (e.kind = 22242 → challengeTagValid challenge e.tags = false →
      handleAuth verifyOk challenge authPk e =
        (authPk, RelayMsg.ok e.id false "error: invalid challenge")) ∧
    (e.kind = 22242 → challengeTagValid challenge e.tags = true → verifyOk = true →
      handleAuth verifyOk challenge authPk e =
        (some e.pubkey, RelayMsg.ok e.id true "auth-success")) ∧
    (e.kind ≠ 22242 →
      handleAuth verifyOk challenge authPk e =
        (authPk, RelayMsg.ok e.id false "error: invalid kind for auth")) := by
  refine ⟨?_, ?_, ?_⟩
  · intro hk hct
    simp [handleAuth, hk, hct]
  · intro hk hct hv
    simp [handleAuth, hk, hct, hv]
  · intro hk
    simp [handleAuth, hk]

/-- Witness for C6 (amended): a correct kind-22242 AUTH with matching
challenge authenticates the pubkey. -/
theorem c6_auth_amended_witness :
    handleAuth true "c" none ⟨"i", "p", 0, 22242, [["challenge", "c"]], "", ""⟩ =
      (some "p", RelayMsg.ok "i" true "auth-success") :=
  (c6_auth_amended true "c" none ⟨"i", "p", 0, 22242, [["challenge", "c"]], "", ""⟩).2.1
    rfl (by decide) rfl

/-- C7: a NIP-86 admin call from a connection that has not completed AUTH,
or whose authenticated pubkey lacks `isAdmin`, is answered with JSON-RPC
error code -32000 and message `Unauthorized: Admin access required` and no
method runs (the users table is unchanged); an authenticated admin calling
an unknown method gets error code -32601. -/
theorem c7_admin_gate (users : List UserRec) (authPk : Option String) (method : String)
    (params : Option (List (Option String))) :
    (isAdminOf users authPk = false →
      handleNip86 users authPk method params =
        (users, RpcResponse.failure (-32000) "Unauthorized: Admin access required")) ∧
    isAdminOf users none = false ∧
    (isAdminOf users authPk = true → method ≠ "list_allowed_users" → method ≠ "allow_user" →
      method ≠ "ban_user" →
      handleNip86 users authPk method params =
        (users, RpcResponse.failure (-32601) "Method not found")) := by
  refine ⟨?_, rfl, ?_⟩
  · intro h
    simp [handleNip86, h]
  · intro h h1 h2 h3
    simp [handleNip86, h, h1, h2, h3]

/-- Witness for C7: an authenticated admin calling method `"bogus"` gets
code -32601. -/
theorem c7_admin_gate_witness :
    handleNip86 [⟨"a", true, WStatus.ACTIVE⟩] (some "a") "bogus" none =
      ([⟨"a", true, WStatus.ACTIVE⟩], RpcResponse.failure (-32601) "Method not found") :=
  (c7_admin_gate [⟨"a", true, WStatus.ACTIVE⟩] (some "a") "bogus" none).2.2
    (by decide) (by decide) (by decide) (by decide)

/-- C9 counterexample: an inbound frame that is not valid JSON
(`serde_json::from_str` fails) matches no recognized shape, yet the receive
loop falls through with no reply at all: no NOTICE is emitted. -/
theorem c9_counterexample :
    handleFrame (α := Unit) (fun _ => none) none = FrameAction.silent ∧
    FrameAction.emitsNotice (α := Unit) (handleFrame (fun _ => none) none) = false := by
  exact ⟨rfl, rfl⟩

/-- C9 (amended): a JSON array whose first element is none of the NEG-*
markers, that the strict decoder rejects, and for which both tolerated
malformed-REQ recoveries fail, draws the `Invalid message` NOTICE and is
handed to no state-changing handler; frames that are not valid JSON, JSON
scalars, and the empty array are silently dropped with no reply and no
state change. -/
theorem c9_invalid_frame_amended {α : Type} (sp : List JsonVal → Option α)
    (h : JsonVal) (rest : List JsonVal) (s : String) (n : Int) (b : Bool) :
    handleFrame sp none = FrameAction.silent ∧
    handleFrame sp (some (JsonVal.str s)) = FrameAction.silent ∧
    handleFrame sp (some (JsonVal.num n)) = FrameAction.silent ∧
    handleFrame sp (some (JsonVal.bool b)) = FrameAction.silent ∧
    handleFrame sp (some JsonVal.null) = FrameAction.silent ∧
    handleFrame sp (some (JsonVal.arr [])) = FrameAction.silent ∧
    (h.asStrD ≠ "NEG-OPEN" → h.asStrD ≠ "NEG-MSG" → h.asStrD ≠ "NEG-CLOSE" →
      sp (h :: rest) = none → reqFixParse sp h rest = none → prefixShape h rest = none →
      handleFrame sp (some (JsonVal.arr (h :: rest))) = FrameAction.notice) ∧
    FrameAction.touchesState (α := α) FrameAction.notice = false ∧
    FrameAction.touchesState (α := α) FrameAction.silent = false := by
  refine ⟨rfl, rfl, rfl, rfl, rfl, rfl, ?_, rfl, rfl⟩
  intro h1 h2 h3 hsp hfix hpre
  simp [handleFrame, h1, h2, h3, hsp, hfix, hpre]

/-- Witness for C9 (amended) at a concrete unrecognized array frame. -/
theorem c9_invalid_frame_amended_witness :
    handleFrame (α := Unit) (fun _ => none) (some (JsonVal.arr [JsonVal.str "FOO"])) =
      FrameAction.notice :=
  (c9_invalid_frame_amended (α := Unit) (fun _ => none) (JsonVal.str "FOO") [] "x" 0 true).2.2.2.2.2.2.1
    (by decide) (by decide) (by decide) rfl rfl rfl

end RelayRs
